import Mathlib

/-!
Shallow embedding of the request-processing core of the simple-gin-crud
repository: the result-code / response contract (`pkg/dto/code.go`,
`internal/shared/dto/base_response.go`), the pagination contract
(`pkg/dto/pagination.go`), and the author/book service layer
(`internal/author/service.go`, `internal/book/service.go`) over a pure
store model of the repositories (`internal/author/repository.go`,
`internal/book/repository.go`).

Modelling conventions:
- Go strings are modelled as Lean `String` (sequences of characters; all
  strings the contract distinguishes are ASCII, where Go's byte length and
  the character length coincide).
- Go `int` / `int64` are modelled as `Int`, with two's-complement
  wrap-around (`wrap64`) applied exactly where the Go code performs
  arithmetic that can overflow.
- UUIDs are modelled as `Nat`; `0` plays the role of the zero (nil) UUID.
- Storage failures (errors returned by the database driver) are modelled
  by explicit boolean oracle parameters, one per repository round-trip,
  in the order the service performs the calls.
- GORM's logical delete excludes deleted rows from every read the core
  performs, so the store holds live rows only.
-/

namespace SimpleGinCrud

/-! ### Result codes (`pkg/dto/code.go`) -/

abbrev Code := String

def Success : Code := "20000"

def Updated : Code := "20010"

def Deleted : Code := "20020"

def Created : Code := "20100"

def BadRequest : Code := "40000"

def NotFound : Code := "40400"

def Conflict : Code := "40900"

def UnprocessableEntity : Code := "42200"

def InternalError : Code := "50000"

def BindingError : Code := "40010"

def UUIDFormatInvalid : Code := "40011"

def ValidationError : Code := "40020"

def BookNotFound : Code := "40401"

def AuthorNotFound : Code := "40402"

def BookAlreadyExists : Code := "40901"

def AuthorAlreadyExists : Code := "40902"

/-- The `CodeMessage` map of `pkg/dto/code.go`. A Go map lookup on a key
without an entry yields the zero value `""`; the source map has no entry
for `Conflict`. -/
def CodeMessage (c : Code) : String :=
  if c = Success then "Success"
  else if c = Updated then "Updated successfully"
  else if c = Deleted then "Deleted successfully"
  else if c = Created then "Created successfully"
  else if c = BadRequest then "Bad Request"
  else if c = NotFound then "Not Found"
  else if c = UnprocessableEntity then "Unprocessable Entity"
  else if c = InternalError then "Internal Server Error"
  else if c = BindingError then "JSON parse error"
  else if c = UUIDFormatInvalid then "Invalid UUID format"
  else if c = BookNotFound then "Book not found"
  else if c = AuthorNotFound then "Author not found"
  else if c = ValidationError then "Validation error"
  else if c = BookAlreadyExists then "Book already exists"
  else if c = AuthorAlreadyExists then "Author already exists"
  else ""

/-! ### strconv.Atoi (Go standard library, as used by the core)

`strconv.Atoi(s)` = `ParseInt(s, 10, 0)` with 64-bit `int`: an optional
single leading sign followed by one or more decimal digits, the value
within the 64-bit signed range; anything else is an error (`none`). -/

def digitsVal (cs : List Char) : Nat :=
  cs.foldl (fun a c => 10 * a + (c.toNat - 48)) 0

def parseDigits (cs : List Char) : Option Nat :=
  if cs.isEmpty then none
  else if cs.all (fun c => c.isDigit) then some (digitsVal cs) else none

def atoi (s : String) : Option Int :=
  match s.toList with
  | '+' :: rest =>
    match parseDigits rest with
    | some n => if n ≤ 9223372036854775807 then some (n : Int) else none
    | none => none
  | '-' :: rest =>
    match parseDigits rest with
    | some n => if n ≤ 9223372036854775808 then some (-(n : Int)) else none
    | none => none
  | cs =>
    match parseDigits cs with
    | some n => if n ≤ 9223372036854775807 then some (n : Int) else none
    | none => none

/-- `Code.GetHTTPCode` of `pkg/dto/code.go`: parse the leading three
characters with `strconv.Atoi`; fall back to `http.StatusInternalServerError`
(500) when the code is shorter than three characters or the prefix does not
parse. -/
def GetHTTPCode (c : Code) : Int :=
  if c.length < 3 then 500
  else
    match atoi (c.take 3) with
    | none => 500
    | some n => n

/-! ### Base response (`internal/shared/dto/base_response.go`) -/

structure BaseResponse (α : Type) where
  code : Code
  message : String
  data : Option α
deriving Repr, DecidableEq

/-- `BuildBaseResponse` of `internal/shared/dto/base_response.go`. -/
def BuildBaseResponse {α : Type} (code : Code) (data : Option α) : BaseResponse α :=
  { code := code, message := CodeMessage code, data := data }

/-! ### Pagination (`pkg/dto/pagination.go`) -/

structure PaginationRequest where
  page : Int
  pageSize : Int
deriving Repr, DecidableEq

def GetOffset (p : PaginationRequest) : Int :=
  (p.page - 1) * p.pageSize

def GetLimit (p : PaginationRequest) : Int :=
  p.pageSize

structure PaginationResponse where
  page : Int
  pageSize : Int
  totalPages : Int
  totalItems : Int
deriving Repr, DecidableEq

structure PaginationDataResponse (α : Type) where
  items : List α
  pagination : PaginationResponse
deriving Repr, DecidableEq

/-- Two's-complement wrap-around of Go `int64` arithmetic: normalize into
`[-2^63, 2^63)`. -/
def wrap64 (n : Int) : Int :=
  (n + 9223372036854775808) % 18446744073709551616 - 9223372036854775808

/-- `NewPaginationRequest` of `pkg/dto/pagination.go`: defaults
page=1/pageSize=10; a non-empty input is used only when it parses via
`strconv.Atoi` to a positive value, otherwise the field keeps its default
and a message for that field is appended. -/
def NewPaginationRequest (page pageSize : String) : PaginationRequest × List String :=
  let errors : List String := []
  let pageVal : Int := 1
  let pageSizeVal : Int := 10
  let (pageVal, errors) :=
    if page ≠ "" then
      match atoi page with
      | some n => if n > 0 then (n, errors) else (pageVal, errors ++ ["Page must be greater than 0"])
      | none => (pageVal, errors ++ ["Page must be greater than 0"])
    else (pageVal, errors)
  let (pageSizeVal, errors) :=
    if pageSize ≠ "" then
      match atoi pageSize with
      | some n =>
        if n > 0 then (n, errors) else (pageSizeVal, errors ++ ["Page size must be greater than 0"])
      | none => (pageSizeVal, errors ++ ["Page size must be greater than 0"])
    else (pageSizeVal, errors)
  ({ page := pageVal, pageSize := pageSizeVal }, errors)

/-- `NewPaginationResponse` of `pkg/dto/pagination.go`:
`totalPages := int((totalItems + int64(pageSize) - 1) / int64(pageSize))`
computed in `int64` arithmetic (hence `wrap64`; Go integer overflow wraps
around), truncated division, then clamped below by 1. -/
def NewPaginationResponse (req : PaginationRequest) (totalItems : Int) : PaginationResponse :=
  let totalPages := (wrap64 (totalItems + req.pageSize - 1)).tdiv req.pageSize
  let totalPages := if totalPages < 1 then 1 else totalPages
  { page := req.page
    pageSize := req.pageSize
    totalPages := totalPages
    totalItems := totalItems }

/-- `NewPaginationDataResponse` of `pkg/dto/pagination.go`. -/
def NewPaginationDataResponse {α : Type} (items : List α) (req : PaginationRequest)
    (totalItems : Int) : PaginationDataResponse α :=
  { items := items, pagination := NewPaginationResponse req totalItems }

/-! ### Entities and store

`Author` (`internal/author/model.go`) and `Book` (`internal/book/model.go`)
carry an opaque storage-assigned id (`models.BaseModel`, a UUID; here `Nat`,
with `0` the zero UUID) plus their business fields. The store holds the live
(non-deleted) rows of both tables together with the id the storage assigns
to the next insert. -/

structure Author where
  id : Nat
  penName : String
  birthYear : Int
deriving Repr, DecidableEq

structure Book where
  id : Nat
  authorID : Nat
  name : String
  isbn : String
deriving Repr, DecidableEq

structure AppState where
  authors : List Author
  books : List Book
  nextAuthorId : Nat
  nextBookId : Nat
deriving Repr, DecidableEq

/-- Storage assigns fresh ids: every stored row's id is below the next id to
be assigned. -/
def WF (st : AppState) : Prop :=
  (∀ a ∈ st.authors, a.id < st.nextAuthorId) ∧ (∀ b ∈ st.books, b.id < st.nextBookId)

instance (st : AppState) : Decidable (WF st) := by
  unfold WF; infer_instance

/-! ### Repository reads (`repository.go`, gorm `First` with a filter):
the first live row matching the filter, `none` when there is no match
(gorm's `ErrRecordNotFound` is translated to `(nil, nil)` by every lookup). -/

def findAuthorById (authors : List Author) (id : Nat) : Option Author :=
  authors.find? (fun a => a.id = id)

def findAuthorByPenName (authors : List Author) (penName : String) : Option Author :=
  authors.find? (fun a => a.penName = penName)

def findBookById (books : List Book) (id : Nat) : Option Book :=
  books.find? (fun b => b.id = id)

def findBookByIsbn (books : List Book) (isbn : String) : Option Book :=
  books.find? (fun b => b.isbn = isbn)

/-! ### Repository writes

`repository.Update` runs gorm `Updates` with a struct value
(`db.Model(&E{}).Where("id = ?", id).Updates(e)`): rows matching the id
have each field overwritten only when the incoming struct field is not the
zero value of its type (gorm skips zero-value fields of a struct update);
the row id itself is never part of the incoming struct. -/

def updateAuthorRow (id : Nat) (upd : Author) (a : Author) : Author :=
  if a.id = id then
    { a with
      penName := if upd.penName = "" then a.penName else upd.penName
      birthYear := if upd.birthYear = 0 then a.birthYear else upd.birthYear }
  else a

def repoUpdateAuthor (st : AppState) (id : Nat) (upd : Author) : AppState :=
  { st with authors := st.authors.map (updateAuthorRow id upd) }

def updateBookRow (id : Nat) (upd : Book) (b : Book) : Book :=
  if b.id = id then
    { b with
      authorID := if upd.authorID = 0 then b.authorID else upd.authorID
      name := if upd.name = "" then b.name else upd.name
      isbn := if upd.isbn = "" then b.isbn else upd.isbn }
  else b

def repoUpdateBook (st : AppState) (id : Nat) (upd : Book) : AppState :=
  { st with books := st.books.map (updateBookRow id upd) }

/-- `repository.GetByAuthorID` of `internal/book/repository.go`: count the
books of the author, fetch the requested page (offset/limit), and build the
pagination envelope. -/
def repoGetBooksByAuthorID (books : List Book) (authorID : Nat)
    (pg : PaginationRequest) : PaginationDataResponse Book :=
  let matching := books.filter (fun b => b.authorID = authorID)
  let total : Int := matching.length
  let items := (matching.drop (GetOffset pg).toNat).take (GetLimit pg).toNat
  NewPaginationDataResponse items pg total

/-! ### Service layer (`internal/author/service.go`, `internal/book/service.go`)

Each boolean oracle stands for "this repository round-trip returned a
storage error", in the order the service issues the calls. -/

structure CreateAuthorRequest where
  penName : String
  birthYear : Int
deriving Repr, DecidableEq

structure UpdateAuthorRequest where
  penName : String
  birthYear : Int
deriving Repr, DecidableEq

structure CreateBookRequest where
  authorID : Nat
  name : String
  isbn : String
deriving Repr, DecidableEq

structure UpdateBookRequest where
  authorID : Nat
  name : String
  isbn : String
deriving Repr, DecidableEq

/-- `service.CreateAuthor` of `internal/author/service.go`. -/
def CreateAuthor (st : AppState) (req : CreateAuthorRequest)
    (penNameLookupFails createFails : Bool) : AppState × Option Author × Code :=
  if penNameLookupFails then (st, none, InternalError)
  else
    match findAuthorByPenName st.authors req.penName with
    | some _ => (st, none, AuthorAlreadyExists)
    | none =>
      if createFails then (st, none, InternalError)
      else
        let a : Author := { id := st.nextAuthorId, penName := req.penName, birthYear := req.birthYear }
        ({ st with authors := st.authors ++ [a], nextAuthorId := st.nextAuthorId + 1 },
         some a, Success)

/-- `service.GetAuthorByID` of `internal/author/service.go`: a missing author
is reported as `Success` with a nil result. -/
def GetAuthorByID (st : AppState) (id : Nat) (lookupFails : Bool) : Option Author × Code :=
  if lookupFails then (none, InternalError)
  else
    match findAuthorById st.authors id with
    | none => (none, Success)
    | some a => (some a, Success)

/-- `service.UpdateAuthor` of `internal/author/service.go`: the incoming
struct carries only the business fields (id is the zero value). -/
def UpdateAuthor (st : AppState) (id : Nat) (req : UpdateAuthorRequest)
    (idLookupFails updateFails : Bool) : AppState × Code :=
  if idLookupFails then (st, InternalError)
  else
    match findAuthorById st.authors id with
    | none => (st, AuthorNotFound)
    | some _ =>
      if updateFails then (st, InternalError)
      else
        (repoUpdateAuthor st id { id := 0, penName := req.penName, birthYear := req.birthYear },
         Success)

/-- `service.CreateBook` of `internal/book/service.go`. -/
def CreateBook (st : AppState) (req : CreateBookRequest)
    (authorLookupFails isbnLookupFails createFails : Bool) :
    AppState × Option Book × Code :=
  let ac := GetAuthorByID st req.authorID authorLookupFails
  if ac.2 ≠ Success then (st, none, ac.2)
  else
    match ac.1 with
    | none => (st, none, AuthorNotFound)
    | some _ =>
      if isbnLookupFails then (st, none, InternalError)
      else
        match findBookByIsbn st.books req.isbn with
        | some _ => (st, none, BookAlreadyExists)
        | none =>
          if createFails then (st, none, InternalError)
          else
            let b : Book :=
              { id := st.nextBookId, authorID := req.authorID, name := req.name, isbn := req.isbn }
            ({ st with books := st.books ++ [b], nextBookId := st.nextBookId + 1 },
             some b, Success)

/-- `service.GetBookByID` of `internal/book/service.go`: a missing book is
reported as `BookNotFound`. -/
def GetBookByID (st : AppState) (id : Nat) (lookupFails : Bool) : Option Book × Code :=
  if lookupFails then (none, InternalError)
  else
    match findBookById st.books id with
    | none => (none, BookNotFound)
    | some b => (some b, Success)

/-- `service.UpdateBook` of `internal/book/service.go`. -/
def UpdateBook (st : AppState) (id : Nat) (req : UpdateBookRequest)
    (bookLookupFails authorLookupFails updateFails : Bool) : AppState × Code :=
  if bookLookupFails then (st, InternalError)
  else
    match findBookById st.books id with
    | none => (st, BookNotFound)
    | some _ =>
      let ac := GetAuthorByID st req.authorID authorLookupFails
      if ac.2 ≠ Success then (st, ac.2)
      else
        match ac.1 with
        | none => (st, AuthorNotFound)
        | some _ =>
          if updateFails then (st, InternalError)
          else
            (repoUpdateBook st id
              { id := 0, authorID := req.authorID, name := req.name, isbn := req.isbn },
             Success)

/-- `service.GetBooksByAuthorID` of `internal/book/service.go`: a storage
error is `InternalError`; otherwise the fetched page is returned with
`Success` whether or not it is empty. -/
def GetBooksByAuthorID (st : AppState) (authorID : Nat) (pg : PaginationRequest)
    (fetchFails : Bool) : Option (PaginationDataResponse Book) × Code :=
  if fetchFails then (none, InternalError)
  else (some (repoGetBooksByAuthorID st.books authorID pg), Success)

/-! ### Struct-tag validation (`pkg/validator`, tags of
`CreateAuthorRequest`/`UpdateAuthorRequest` in `internal/author/dto.go` and
`CreateBookRequest`/`UpdateBookRequest` in `internal/book/dto.go`) -/

/-- Constraints of `UpdateAuthorRequest` struct tags
(`required,min=1,max=255` on penName; `required,min=1800,max=2600` on
birthYear). The ISBN-style format checks do not apply to authors. -/
def ValidUpdateAuthorRequest (r : UpdateAuthorRequest) : Prop :=
  r.penName ≠ "" ∧ r.penName.length ≤ 255 ∧ 1800 ≤ r.birthYear ∧ r.birthYear ≤ 2600

/-- Zero-excluding consequences of the `UpdateBookRequest` struct tags
(`required` on authorID, `required,min=1,max=255` on name,
`required,isbn` on isbn): a request passing validation has no zero-valued
field; the ISBN checksum itself is not needed by any claim and implies
non-emptiness. -/
def ValidUpdateBookRequest (r : UpdateBookRequest) : Prop :=
  r.authorID ≠ 0 ∧ r.name ≠ "" ∧ r.name.length ≤ 255 ∧ r.isbn ≠ ""

instance (r : UpdateAuthorRequest) : Decidable (ValidUpdateAuthorRequest r) := by
  unfold ValidUpdateAuthorRequest; infer_instance

instance (r : UpdateBookRequest) : Decidable (ValidUpdateBookRequest r) := by
  unfold ValidUpdateBookRequest; infer_instance

/-! ### Helper lemmas -/

theorem find?_append_of_none {α : Type} {p : α → Bool} {l1 l2 : List α}
    (h : l1.find? p = none) : (l1 ++ l2).find? p = l2.find? p := by
  rw [List.find?_append, h, Option.none_or]

theorem updateAuthorRow_id (id : Nat) (upd a : Author) :
    (updateAuthorRow id upd a).id = a.id := by
  unfold updateAuthorRow; split <;> rfl

theorem updateBookRow_id (id : Nat) (upd b : Book) :
    (updateBookRow id upd b).id = b.id := by
  unfold updateBookRow; split <;> rfl

theorem wrap64_eq_self {n : Int} (h1 : -9223372036854775808 ≤ n)
    (h2 : n < 9223372036854775808) : wrap64 n = n := by
  unfold wrap64
  rw [Int.emod_eq_of_lt (by omega) (by omega)]
  omega

/-! ### Claims -/

/-- C1: for every code value, `GetHTTPCode` returns the integer obtained by
parsing the code's leading three characters with `strconv.Atoi` (so "20000"
gives 200, "40401" gives 404, "50000" gives 500), and returns 500 whenever
the code is malformed: shorter than three characters, or with a prefix that
does not parse as a number. -/
theorem getHTTPCode_spec (c : Code) :
    (GetHTTPCode "20000" = 200 ∧ GetHTTPCode "40401" = 404 ∧ GetHTTPCode "50000" = 500) ∧
    (c.length < 3 → GetHTTPCode c = 500) ∧
    (atoi (c.take 3) = none → GetHTTPCode c = 500) ∧
    (∀ n : Int, 3 ≤ c.length → atoi (c.take 3) = some n → GetHTTPCode c = n) := by
  refine ⟨by decide, ?_, ?_, ?_⟩
  · intro h
    unfold GetHTTPCode
    rw [if_pos h]
  · intro h
    unfold GetHTTPCode
    split
    · rfl
    · rw [h]
  · intro n hlen h
    unfold GetHTTPCode
    rw [if_neg (by omega), h]

/-- C1 witness: the general clauses of `getHTTPCode_spec` instantiated at
concrete codes. -/
theorem getHTTPCode_spec_witness :
    GetHTTPCode "ab" = 500 ∧ GetHTTPCode "xyz12" = 500 ∧ GetHTTPCode "40402" = 404 := by
  refine ⟨?_, ?_, ?_⟩
  · exact (getHTTPCode_spec "ab").2.1 (by decide)
  · exact (getHTTPCode_spec "xyz12").2.2.1 (by decide)
  · exact (getHTTPCode_spec "40402").2.2.2 404 (by decide) (by decide)

/-- C2 counterexample: the `Conflict` code ("40900") has no entry in the
`CodeMessage` map, so its lookup yields the empty string — not a non-empty
human-readable message as claimed. -/
theorem codeMessage_conflict_empty :
    Conflict = "40900" ∧ CodeMessage Conflict = "" := by decide

/-- C2 (amended): every code of the closed enumeration except `Conflict`
maps to its fixed non-empty message; `Conflict` is absent from the map and
yields the empty string; and `BuildBaseResponse code data` is exactly
`{code, message = CodeMessage code, data}` for every code and data value. -/
theorem codeMessage_table_buildBaseResponse :
    (CodeMessage Success = "Success" ∧
     CodeMessage Updated = "Updated successfully" ∧
     CodeMessage Deleted = "Deleted successfully" ∧
     CodeMessage Created = "Created successfully" ∧
     CodeMessage BadRequest = "Bad Request" ∧
     CodeMessage NotFound = "Not Found" ∧
     CodeMessage UnprocessableEntity = "Unprocessable Entity" ∧
     CodeMessage InternalError = "Internal Server Error" ∧
     CodeMessage BindingError = "JSON parse error" ∧
     CodeMessage UUIDFormatInvalid = "Invalid UUID format" ∧
     CodeMessage ValidationError = "Validation error" ∧
     CodeMessage BookNotFound = "Book not found" ∧
     CodeMessage AuthorNotFound = "Author not found" ∧
     CodeMessage BookAlreadyExists = "Book already exists" ∧
     CodeMessage AuthorAlreadyExists = "Author already exists" ∧
     CodeMessage Conflict = "") ∧
    (∀ (α : Type) (code : Code) (data : Option α),
      BuildBaseResponse code data =
        { code := code, message := CodeMessage code, data := data }) :=
  ⟨by decide, fun _ _ _ => rfl⟩

/-- C8 counterexample: at the largest int64 count `totalItems = 2^63 - 1`
with `pageSize = 10`, the int64 numerator `totalItems + pageSize - 1` wraps
around, the truncated quotient is negative, and the clamp yields
`totalPages = 1` — not the claimed `max(1, ceil(totalItems/pageSize))`,
since `10 * 1` does not cover `2^63 - 1` items. -/
theorem newPaginationResponse_overflow :
    (1:Int) ≤ 10 ∧ (0:Int) ≤ 9223372036854775807 ∧
    (NewPaginationResponse { page := 1, pageSize := 10 } 9223372036854775807).totalPages = 1 ∧
    ¬((9223372036854775807:Int) ≤
        10 * (NewPaginationResponse { page := 1, pageSize := 10 } 9223372036854775807).totalPages) := by
  decide

/-- C8 (amended): for every request with `pageSize ≥ 1` and every
`totalItems ≥ 0` such that the int64 numerator `totalItems + pageSize - 1`
does not overflow, the built response echoes page, pageSize and totalItems,
and `totalPages` is exactly `max(1, ceil(totalItems / pageSize))`: it is at
least 1, `pageSize * totalPages` covers `totalItems`, and it is minimal with
that property (either 1 or one fewer page would not cover `totalItems`). -/
theorem newPaginationResponse_spec (req : PaginationRequest) (t : Int)
    (hs : 1 ≤ req.pageSize) (ht : 0 ≤ t)
    (hov : t + req.pageSize - 1 < 9223372036854775808) :
    (NewPaginationResponse req t).page = req.page ∧
    (NewPaginationResponse req t).pageSize = req.pageSize ∧
    (NewPaginationResponse req t).totalItems = t ∧
    1 ≤ (NewPaginationResponse req t).totalPages ∧
    t ≤ req.pageSize * (NewPaginationResponse req t).totalPages ∧
    ((NewPaginationResponse req t).totalPages = 1 ∨
      req.pageSize * ((NewPaginationResponse req t).totalPages - 1) < t) := by
  have hw : wrap64 (t + req.pageSize - 1) = t + req.pageSize - 1 :=
    wrap64_eq_self (by omega) hov
  have htd : (t + req.pageSize - 1).tdiv req.pageSize =
      (t + req.pageSize - 1) / req.pageSize :=
    Int.tdiv_eq_ediv (by omega) (by omega)
  have hqr := Int.ediv_add_emod (t + req.pageSize - 1) req.pageSize
  have hr0 : 0 ≤ (t + req.pageSize - 1) % req.pageSize :=
    Int.emod_nonneg _ (by omega)
  have hrlt : (t + req.pageSize - 1) % req.pageSize < req.pageSize :=
    Int.emod_lt_of_pos _ (by omega)
  have htp : (NewPaginationResponse req t).totalPages =
      (if (t + req.pageSize - 1) / req.pageSize < 1 then 1
       else (t + req.pageSize - 1) / req.pageSize) := by
    simp only [NewPaginationResponse, hw, htd]
  refine ⟨rfl, rfl, rfl, ?_, ?_, ?_⟩
  · rw [htp]; split <;> omega
  · rw [htp]; split
    · rename_i hq
      have hq0 : (t + req.pageSize - 1) / req.pageSize ≤ 0 := by omega
      have hmul : req.pageSize * ((t + req.pageSize - 1) / req.pageSize) ≤ 0 :=
        mul_nonpos_of_nonneg_of_nonpos (by omega) hq0
      nlinarith
    · nlinarith
  · rw [htp]; split
    · exact Or.inl rfl
    · refine Or.inr ?_
      have hexp : req.pageSize * ((t + req.pageSize - 1) / req.pageSize - 1) =
          req.pageSize * ((t + req.pageSize - 1) / req.pageSize) - req.pageSize := by ring
      rw [hexp]
      nlinarith

/-- C8 witness: `newPaginationResponse_spec` instantiated at page 1,
pageSize 10, totalItems 25, together with the concrete totals of the claim's
examples. -/
theorem newPaginationResponse_spec_witness :
    (NewPaginationResponse { page := 1, pageSize := 10 } 25).totalPages = 3 ∧
    (NewPaginationResponse { page := 1, pageSize := 10 } 10).totalPages = 1 ∧
    (NewPaginationResponse { page := 1, pageSize := 10 } 0).totalPages = 1 ∧
    (NewPaginationResponse { page := 1, pageSize := 10 } 25).page = 1 ∧
    (NewPaginationResponse { page := 1, pageSize := 10 } 25).totalItems = 25 ∧
    (25:Int) ≤ 10 * (NewPaginationResponse { page := 1, pageSize := 10 } 25).totalPages := by
  have h := newPaginationResponse_spec { page := 1, pageSize := 10 } 25
    (by decide) (by decide) (by decide)
  exact ⟨by decide, by decide, by decide, h.1, h.2.2.1, h.2.2.2.2.1⟩

/-- C9: the pagination parser always returns a usable request: empty inputs
give page=1/pageSize=10 with no errors; a non-numeric or non-positive input
for a field contributes that field's validation message while the field
falls back to its default; and a numeric pageSize above 100 is accepted
with no error (positivity is the only bound checked at parse time). -/
theorem newPaginationRequest_spec :
    (NewPaginationRequest "" "" = ({ page := 1, pageSize := 10 }, [])) ∧
    (∀ p ps, 1 ≤ (NewPaginationRequest p ps).1.page ∧
      1 ≤ (NewPaginationRequest p ps).1.pageSize) ∧
    (∀ p ps, p ≠ "" →
      ((∀ n : Int, atoi p = some n → n ≤ 0) ∨ atoi p = none) →
      (NewPaginationRequest p ps).1.page = 1 ∧
      "Page must be greater than 0" ∈ (NewPaginationRequest p ps).2) ∧
    (∀ p ps, ps ≠ "" →
      ((∀ n : Int, atoi ps = some n → n ≤ 0) ∨ atoi ps = none) →
      (NewPaginationRequest p ps).1.pageSize = 10 ∧
      "Page size must be greater than 0" ∈ (NewPaginationRequest p ps).2) ∧
    (∀ ps (n : Int), atoi ps = some n → 100 < n →
      NewPaginationRequest "" ps = ({ page := 1, pageSize := n }, [])) := by
  refine ⟨rfl, ?_, ?_, ?_, ?_⟩
  · intro p ps
    unfold NewPaginationRequest
    by_cases hp : p = "" <;> by_cases hps : ps = "" <;>
      rcases hap : atoi p with _ | n <;> rcases haps : atoi ps with _ | m <;>
        simp [hp, hps, hap, haps] <;> split_ifs <;> simp_all <;> omega
  · intro p ps hp hbad
    unfold NewPaginationRequest
    rcases hap : atoi p with _ | n
    · by_cases hps : ps = "" <;>
        rcases haps : atoi ps with _ | m <;>
          simp [hp, hps, hap, haps] <;> split_ifs <;> simp_all
    · have hn : ¬(n > 0) := by
        rcases hbad with hle | hnone
        · have := hle n hap; omega
        · rw [hap] at hnone; exact absurd hnone (by simp)
      by_cases hps : ps = "" <;>
        rcases haps : atoi ps with _ | m <;>
          simp [hp, hps, hap, haps, hn] <;> split_ifs <;> simp_all
  · intro p ps hps hbad
    unfold NewPaginationRequest
    rcases haps : atoi ps with _ | m
    · by_cases hp : p = "" <;>
        rcases hap : atoi p with _ | n <;>
          simp [hp, hps, hap, haps] <;> split_ifs <;> simp_all
    · have hm : ¬(m > 0) := by
        rcases hbad with hle | hnone
        · have := hle m haps; omega
        · rw [haps] at hnone; exact absurd hnone (by simp)
      by_cases hp : p = "" <;>
        rcases hap : atoi p with _ | n <;>
          simp [hp, hps, hap, haps, hm] <;> split_ifs <;> simp_all
  · intro ps n haps hn
    have hps : ps ≠ "" := by
      intro h
      rw [h, show atoi "" = none from rfl] at haps
      exact Option.noConfusion haps
    unfold NewPaginationRequest
    simp [hps, haps, show n > 0 by omega]

/-- C9 witness: `newPaginationRequest_spec` instantiated at the claim's
examples: parse ("", "") and parse ("0", "10"). -/
theorem newPaginationRequest_spec_witness :
    NewPaginationRequest "" "" = ({ page := 1, pageSize := 10 }, []) ∧
    ((NewPaginationRequest "0" "10").1.page = 1 ∧
      "Page must be greater than 0" ∈ (NewPaginationRequest "0" "10").2) ∧
    NewPaginationRequest "" "500" = ({ page := 1, pageSize := 500 }, []) := by
  refine ⟨newPaginationRequest_spec.1, ?_, ?_⟩
  · refine newPaginationRequest_spec.2.2.1 "0" "10" (by decide) (Or.inl ?_)
    intro n h
    rw [show atoi "0" = some (0:Int) from by decide] at h
    simp at h
    omega
  · exact newPaginationRequest_spec.2.2.2.2 "500" 500 (by decide) (by decide)

/-- C3: when an author with the requested pen name already exists,
`CreateAuthor` returns `AuthorAlreadyExists`, leaves the store unchanged,
and the result does not depend on the insert oracle (the repository
`Create` is never reached); with no such author and succeeding storage it
inserts and returns `Success` with the new entity; any storage failure
(pen-name lookup or insert) yields `InternalError` with the store
unchanged. -/
theorem createAuthor_spec (st : AppState) (req : CreateAuthorRequest) :
    (∀ createFails : Bool, findAuthorByPenName st.authors req.penName ≠ none →
      CreateAuthor st req false createFails = (st, none, AuthorAlreadyExists)) ∧
    (findAuthorByPenName st.authors req.penName = none →
      CreateAuthor st req false false =
        ({ st with
            authors := st.authors ++
              [{ id := st.nextAuthorId, penName := req.penName, birthYear := req.birthYear }],
            nextAuthorId := st.nextAuthorId + 1 },
         some { id := st.nextAuthorId, penName := req.penName, birthYear := req.birthYear },
         Success)) ∧
    (∀ createFails : Bool, CreateAuthor st req true createFails = (st, none, InternalError)) ∧
    (findAuthorByPenName st.authors req.penName = none →
      CreateAuthor st req false true = (st, none, InternalError)) := by
  refine ⟨?_, ?_, ?_, ?_⟩
  · intro cf h
    rcases hf : findAuthorByPenName st.authors req.penName with _ | a
    · exact absurd hf h
    · simp [CreateAuthor, hf]
  · intro h
    simp [CreateAuthor, h]
  · intro cf
    simp [CreateAuthor]
  · intro h
    simp [CreateAuthor, h]

/-- C3 witness: `createAuthor_spec` at a store already holding pen name
"dup", with the insert oracle set to failing — the duplicate is still
reported and the store untouched. -/
theorem createAuthor_spec_witness :
    findAuthorByPenName [{ id := 0, penName := "dup", birthYear := 1990 }] "dup" ≠ none ∧
    CreateAuthor
        { authors := [{ id := 0, penName := "dup", birthYear := 1990 }],
          books := [], nextAuthorId := 1, nextBookId := 0 }
        { penName := "dup", birthYear := 2000 } false true =
      ({ authors := [{ id := 0, penName := "dup", birthYear := 1990 }],
         books := [], nextAuthorId := 1, nextBookId := 0 },
       none, AuthorAlreadyExists) := by
  refine ⟨by decide, ?_⟩
  exact (createAuthor_spec _ _).1 true (by decide)

/-- C4: `CreateBook` propagates a non-success author-lookup code verbatim;
a successful lookup with no author yields `AuthorNotFound` with no insert;
an existing ISBN yields `BookAlreadyExists` with no insert; otherwise the
book is inserted and returned with `Success`; storage errors on the ISBN
lookup or the insert yield `InternalError`. -/
theorem createBook_spec (st : AppState) (req : CreateBookRequest) :
    (∀ f1 f2 f3 : Bool, (GetAuthorByID st req.authorID f1).2 ≠ Success →
      CreateBook st req f1 f2 f3 = (st, none, (GetAuthorByID st req.authorID f1).2)) ∧
    (∀ f2 f3 : Bool, (GetAuthorByID st req.authorID false).1 = none →
      CreateBook st req false f2 f3 = (st, none, AuthorNotFound)) ∧
    (∀ f3 : Bool, findAuthorById st.authors req.authorID ≠ none →
      findBookByIsbn st.books req.isbn ≠ none →
      CreateBook st req false false f3 = (st, none, BookAlreadyExists)) ∧
    (findAuthorById st.authors req.authorID ≠ none →
      findBookByIsbn st.books req.isbn = none →
      CreateBook st req false false false =
        ({ st with
            books := st.books ++
              [{ id := st.nextBookId, authorID := req.authorID,
                 name := req.name, isbn := req.isbn }],
            nextBookId := st.nextBookId + 1 },
         some { id := st.nextBookId, authorID := req.authorID,
                name := req.name, isbn := req.isbn },
         Success)) ∧
    (findAuthorById st.authors req.authorID ≠ none →
      (CreateBook st req false true false).2.2 = InternalError ∧
      (findBookByIsbn st.books req.isbn = none →
        (CreateBook st req false false true).2.2 = InternalError)) := by
  refine ⟨?_, ?_, ?_, ?_, ?_⟩
  · intro f1 f2 f3 h
    cases f1
    · exact absurd (by simp [GetAuthorByID]; rcases findAuthorById st.authors req.authorID with _ | a <;> simp) h
    · simp [CreateBook, GetAuthorByID, InternalError, Success]
  · intro f2 f3 h
    rcases hf : findAuthorById st.authors req.authorID with _ | a
    · simp [CreateBook, GetAuthorByID, hf]
    · simp [GetAuthorByID, hf] at h
  · intro f3 ha hb
    rcases hf : findAuthorById st.authors req.authorID with _ | a
    · exact absurd hf ha
    · rcases hg : findBookByIsbn st.books req.isbn with _ | b
      · exact absurd hg hb
      · simp [CreateBook, GetAuthorByID, hf, hg]
  · intro ha hb
    rcases hf : findAuthorById st.authors req.authorID with _ | a
    · exact absurd hf ha
    · simp [CreateBook, GetAuthorByID, hf, hb]
  · intro ha
    rcases hf : findAuthorById st.authors req.authorID with _ | a
    · exact absurd hf ha
    · constructor
      · simp [CreateBook, GetAuthorByID, hf]
      · intro hb
        simp [CreateBook, GetAuthorByID, hf, hb]

/-- C4 witness: `createBook_spec` at a store with one author (id 1) and no
books: creating a book whose authorID is 7 (no such author) is rejected
with `AuthorNotFound` even though the insert oracle is set to failing. -/
theorem createBook_spec_witness :
    (GetAuthorByID
        { authors := [{ id := 1, penName := "a", birthYear := 1990 }],
          books := [], nextAuthorId := 2, nextBookId := 0 } 7 false).1 = none ∧
    CreateBook
        { authors := [{ id := 1, penName := "a", birthYear := 1990 }],
          books := [], nextAuthorId := 2, nextBookId := 0 }
        { authorID := 7, name := "b", isbn := "i" } false true true =
      ({ authors := [{ id := 1, penName := "a", birthYear := 1990 }],
         books := [], nextAuthorId := 2, nextBookId := 0 },
       none, AuthorNotFound) := by
  refine ⟨by decide, ?_⟩
  exact (createBook_spec _ _).2.1 true true (by decide)

/-- C5: for an absent id the Author service's GetByID returns `Success`
with a nil result while the Book service's GetByID returns `BookNotFound`;
in both, a storage failure yields `InternalError`, and a present entity
yields `Success` with the entity. -/
theorem getById_asymmetry (st : AppState) (id : Nat) :
    (findAuthorById st.authors id = none → GetAuthorByID st id false = (none, Success)) ∧
    (findBookById st.books id = none → GetBookByID st id false = (none, BookNotFound)) ∧
    GetAuthorByID st id true = (none, InternalError) ∧
    GetBookByID st id true = (none, InternalError) ∧
    (∀ a, findAuthorById st.authors id = some a →
      GetAuthorByID st id false = (some a, Success)) ∧
    (∀ b, findBookById st.books id = some b →
      GetBookByID st id false = (some b, Success)) := by
  refine ⟨?_, ?_, rfl, rfl, ?_, ?_⟩
  · intro h; simp [GetAuthorByID, h]
  · intro h; simp [GetBookByID, h]
  · intro a h; simp [GetAuthorByID, h]
  · intro b h; simp [GetBookByID, h]

/-- C5 witness: `getById_asymmetry` at a store with one author (id 1) and
one book (id 1), queried at the absent id 9 and the present id 1. -/
theorem getById_asymmetry_witness :
    GetAuthorByID
        { authors := [{ id := 1, penName := "a", birthYear := 1990 }],
          books := [{ id := 1, authorID := 1, name := "b", isbn := "i" }],
          nextAuthorId := 2, nextBookId := 2 } 9 false = (none, Success) ∧
    GetBookByID
        { authors := [{ id := 1, penName := "a", birthYear := 1990 }],
          books := [{ id := 1, authorID := 1, name := "b", isbn := "i" }],
          nextAuthorId := 2, nextBookId := 2 } 9 false = (none, BookNotFound) ∧
    GetBookByID
        { authors := [{ id := 1, penName := "a", birthYear := 1990 }],
          books := [{ id := 1, authorID := 1, name := "b", isbn := "i" }],
          nextAuthorId := 2, nextBookId := 2 } 1 false =
      (some { id := 1, authorID := 1, name := "b", isbn := "i" }, Success) := by
  refine ⟨?_, ?_, ?_⟩
  · exact (getById_asymmetry _ 9).1 (by decide)
  · exact (getById_asymmetry _ 9).2.1 (by decide)
  · exact (getById_asymmetry _ 1).2.2.2.2.2 _ (by decide)

/-- C6: for a store containing the book, `UpdateBook` with an authorID that
references no author returns `AuthorNotFound` leaving the store unchanged,
independently of the update oracle (the repository `Update` is never
reached); an absent book id returns `BookNotFound` with no state change;
and more generally every non-`Success` outcome leaves the store unchanged. -/
theorem updateBook_frame (st : AppState) (id : Nat) (req : UpdateBookRequest) :
    (∀ updateFails : Bool, findBookById st.books id ≠ none →
      findAuthorById st.authors req.authorID = none →
      UpdateBook st id req false false updateFails = (st, AuthorNotFound)) ∧
    (∀ authorLookupFails updateFails : Bool, findBookById st.books id = none →
      UpdateBook st id req false authorLookupFails updateFails = (st, BookNotFound)) ∧
    (∀ f1 f2 f3 : Bool, (UpdateBook st id req f1 f2 f3).2 ≠ Success →
      (UpdateBook st id req f1 f2 f3).1 = st) := by
  refine ⟨?_, ?_, ?_⟩
  · intro uf hb ha
    rcases hf : findBookById st.books id with _ | b
    · exact absurd hf hb
    · simp [UpdateBook, GetAuthorByID, hf, ha]
  · intro f2 f3 hb
    simp [UpdateBook, hb]
  · intro f1 f2 f3 h
    cases f1
    · rcases hf : findBookById st.books id with _ | b
      · simp [UpdateBook, hf]
      · cases f2
        · rcases ha : findAuthorById st.authors req.authorID with _ | a
          · simp [UpdateBook, GetAuthorByID, hf, ha]
          · cases f3
            · exact absurd (by simp [UpdateBook, GetAuthorByID, hf, ha]) h
            · simp [UpdateBook, GetAuthorByID, hf, ha]
        · simp [UpdateBook, GetAuthorByID, hf, InternalError, Success]
    · simp [UpdateBook]

/-- C6 witness: `updateBook_frame` at a store holding book id 0 whose update
request names the absent author 5, with the update oracle failing — the book
is untouched and `AuthorNotFound` is returned. -/
theorem updateBook_frame_witness :
    findBookById [{ id := 0, authorID := 1, name := "b", isbn := "i" }] 0 ≠ none ∧
    findAuthorById [{ id := 1, penName := "a", birthYear := 1990 }] 5 = none ∧
    UpdateBook
        { authors := [{ id := 1, penName := "a", birthYear := 1990 }],
          books := [{ id := 0, authorID := 1, name := "b", isbn := "i" }],
          nextAuthorId := 2, nextBookId := 1 }
        0 { authorID := 5, name := "n", isbn := "j" } false false true =
      ({ authors := [{ id := 1, penName := "a", birthYear := 1990 }],
         books := [{ id := 0, authorID := 1, name := "b", isbn := "i" }],
         nextAuthorId := 2, nextBookId := 1 },
       AuthorNotFound) := by
  refine ⟨by decide, by decide, ?_⟩
  exact (updateBook_frame _ 0 _).1 true (by decide) (by decide)

/-- C10: `GetBooksByAuthorID` performs no author-existence check: whenever
the fetch succeeds it returns `Success` with the fetched (possibly empty)
page, it never returns `AuthorNotFound` for any oracle value, and its
result depends only on the stored books — a nonexistent author is
indistinguishable from an existing author with no books. -/
theorem getBooksByAuthorID_no_author_check (st : AppState) (authorID : Nat)
    (pg : PaginationRequest) :
    (GetBooksByAuthorID st authorID pg false).2 = Success ∧
    (GetBooksByAuthorID st authorID pg false).1 =
      some (repoGetBooksByAuthorID st.books authorID pg) ∧
    (∀ fetchFails : Bool,
      (GetBooksByAuthorID st authorID pg fetchFails).2 ≠ AuthorNotFound) ∧
    (∀ st' : AppState, st'.books = st.books →
      GetBooksByAuthorID st' authorID pg false = GetBooksByAuthorID st authorID pg false) := by
  refine ⟨rfl, rfl, ?_, ?_⟩
  · intro f
    cases f
    · simp [GetBooksByAuthorID, Success, AuthorNotFound]
    · simp [GetBooksByAuthorID, InternalError, AuthorNotFound]
  · intro st' h
    simp [GetBooksByAuthorID, h]

/-- C10 witness: `getBooksByAuthorID_no_author_check` comparing a store
whose author table contains author 7 against one with an empty author
table: the books-by-author result for author 7 is identical. -/
theorem getBooksByAuthorID_no_author_check_witness :
    GetBooksByAuthorID
        { authors := [], books := [], nextAuthorId := 0, nextBookId := 0 }
        7 { page := 1, pageSize := 10 } false =
      GetBooksByAuthorID
        { authors := [{ id := 7, penName := "a", birthYear := 1990 }],
          books := [], nextAuthorId := 8, nextBookId := 0 }
        7 { page := 1, pageSize := 10 } false ∧
    (GetBooksByAuthorID
        { authors := [], books := [], nextAuthorId := 0, nextBookId := 0 }
        7 { page := 1, pageSize := 10 } false).2 = Success := by
  constructor
  · exact (getBooksByAuthorID_no_author_check
      { authors := [{ id := 7, penName := "a", birthYear := 1990 }],
        books := [], nextAuthorId := 8, nextBookId := 0 } 7 { page := 1, pageSize := 10 }).2.2.2
      { authors := [], books := [], nextAuthorId := 0, nextBookId := 0 } (by decide)
  · exact (getBooksByAuthorID_no_author_check _ 7 _).1

/-- C7 helper: in a well-formed author table, no stored row carries the id
the storage will assign next. -/
theorem authors_find_next_none (st : AppState) (hwf : WF st) :
    st.authors.find? (fun a => a.id = st.nextAuthorId) = none := by
  rw [List.find?_eq_none]
  intro x hx
  have := hwf.1 x hx
  simp only [decide_eq_true_eq]
  omega

/-- C7 helper: in a well-formed book table, no stored row carries the id
the storage will assign next. -/
theorem books_find_next_none (st : AppState) (hwf : WF st) :
    st.books.find? (fun b => b.id = st.nextBookId) = none := by
  rw [List.find?_eq_none]
  intro x hx
  have := hwf.2 x hx
  simp only [decide_eq_true_eq]
  omega

/-- C7: Create → Update (with a complete, validation-passing field set) →
GetByID reflects exactly the updated field values, not a merge of old and
new: the service update fully replaces penName/birthYear of an author and
authorID/name/isbn of a book. -/
theorem create_update_get_roundtrip :
    (∀ (st : AppState) (reqA : CreateAuthorRequest) (updA : UpdateAuthorRequest),
      WF st → findAuthorByPenName st.authors reqA.penName = none →
      ValidUpdateAuthorRequest updA →
      (CreateAuthor st reqA false false).2.1 =
        some { id := st.nextAuthorId, penName := reqA.penName, birthYear := reqA.birthYear } ∧
      (UpdateAuthor (CreateAuthor st reqA false false).1
          st.nextAuthorId updA false false).2 = Success ∧
      GetAuthorByID
          (UpdateAuthor (CreateAuthor st reqA false false).1
            st.nextAuthorId updA false false).1
          st.nextAuthorId false =
        (some { id := st.nextAuthorId, penName := updA.penName, birthYear := updA.birthYear },
         Success)) ∧
    (∀ (st : AppState) (reqB : CreateBookRequest) (updB : UpdateBookRequest),
      WF st → findAuthorById st.authors reqB.authorID ≠ none →
      findBookByIsbn st.books reqB.isbn = none →
      findAuthorById st.authors updB.authorID ≠ none →
      ValidUpdateBookRequest updB →
      (CreateBook st reqB false false false).2.1 =
        some { id := st.nextBookId, authorID := reqB.authorID,
               name := reqB.name, isbn := reqB.isbn } ∧
      (UpdateBook (CreateBook st reqB false false false).1
          st.nextBookId updB false false false).2 = Success ∧
      GetBookByID
          (UpdateBook (CreateBook st reqB false false false).1
            st.nextBookId updB false false false).1
          st.nextBookId false =
        (some { id := st.nextBookId, authorID := updB.authorID,
                name := updB.name, isbn := updB.isbn },
         Success)) := by
  constructor
  · intro st reqA updA hwf hfresh hvalid
    obtain ⟨hpen, hplen, hy1, hy2⟩ := hvalid
    have hcreate : CreateAuthor st reqA false false =
        ({ st with
            authors := st.authors ++
              [{ id := st.nextAuthorId, penName := reqA.penName, birthYear := reqA.birthYear }],
            nextAuthorId := st.nextAuthorId + 1 },
         some { id := st.nextAuthorId, penName := reqA.penName, birthYear := reqA.birthYear },
         Success) := by
      simp [CreateAuthor, hfresh]
    have hfind1 : findAuthorById
        (st.authors ++
          [{ id := st.nextAuthorId, penName := reqA.penName, birthYear := reqA.birthYear }])
        st.nextAuthorId =
        some { id := st.nextAuthorId, penName := reqA.penName, birthYear := reqA.birthYear } := by
      unfold findAuthorById
      rw [find?_append_of_none (authors_find_next_none st hwf)]
      simp
    have hrow : updateAuthorRow st.nextAuthorId
        ({ id := 0, penName := updA.penName, birthYear := updA.birthYear } : Author)
        { id := st.nextAuthorId, penName := reqA.penName, birthYear := reqA.birthYear } =
        { id := st.nextAuthorId, penName := updA.penName, birthYear := updA.birthYear } := by
      unfold updateAuthorRow
      rw [if_pos rfl]
      simp only []
      rw [if_neg hpen, if_neg (by omega : ¬updA.birthYear = 0)]
    have hmapnone : ((st.authors.map (updateAuthorRow st.nextAuthorId
          ({ id := 0, penName := updA.penName, birthYear := updA.birthYear } : Author))).find?
            (fun a => a.id = st.nextAuthorId)) = none := by
      rw [List.find?_eq_none]
      intro x hx
      obtain ⟨y, hy, rfl⟩ := List.mem_map.mp hx
      have := hwf.1 y hy
      simp only [updateAuthorRow_id, decide_eq_true_eq]
      omega
    have hupd : UpdateAuthor (CreateAuthor st reqA false false).1
        st.nextAuthorId updA false false =
        ({ st with
            authors := List.map
              (updateAuthorRow st.nextAuthorId
                ({ id := 0, penName := updA.penName, birthYear := updA.birthYear } : Author))
              (st.authors ++
                [{ id := st.nextAuthorId, penName := reqA.penName,
                   birthYear := reqA.birthYear }]),
            nextAuthorId := st.nextAuthorId + 1 },
         Success) := by
      rw [hcreate]
      simp [UpdateAuthor, repoUpdateAuthor, hfind1]
    refine ⟨by rw [hcreate], by rw [hupd], ?_⟩
    rw [hupd]
    simp [GetAuthorByID, findAuthorById, List.find?_append, hmapnone, hrow]
  · intro st reqB updB hwf hauth hisbn hauth2 hvalid
    obtain ⟨haid, hname, hnlen, hib⟩ := hvalid
    rcases ha : findAuthorById st.authors reqB.authorID with _ | a
    · exact absurd ha hauth
    rcases ha2 : findAuthorById st.authors updB.authorID with _ | a2
    · exact absurd ha2 hauth2
    have hcreate : CreateBook st reqB false false false =
        ({ st with
            books := st.books ++
              [{ id := st.nextBookId, authorID := reqB.authorID,
                 name := reqB.name, isbn := reqB.isbn }],
            nextBookId := st.nextBookId + 1 },
         some { id := st.nextBookId, authorID := reqB.authorID,
                name := reqB.name, isbn := reqB.isbn },
         Success) := by
      simp [CreateBook, GetAuthorByID, ha, hisbn]
    have hfind1 : findBookById
        (st.books ++
          [{ id := st.nextBookId, authorID := reqB.authorID,
             name := reqB.name, isbn := reqB.isbn }])
        st.nextBookId =
        some { id := st.nextBookId, authorID := reqB.authorID,
               name := reqB.name, isbn := reqB.isbn } := by
      unfold findBookById
      rw [find?_append_of_none (books_find_next_none st hwf)]
      simp
    have hrow : updateBookRow st.nextBookId
        ({ id := 0, authorID := updB.authorID, name := updB.name, isbn := updB.isbn } : Book)
        { id := st.nextBookId, authorID := reqB.authorID,
          name := reqB.name, isbn := reqB.isbn } =
        { id := st.nextBookId, authorID := updB.authorID,
          name := updB.name, isbn := updB.isbn } := by
      unfold updateBookRow
      rw [if_pos rfl]
      simp only []
      rw [if_neg haid, if_neg hname, if_neg hib]
    have hmapnone : (List.find? (fun b => b.id = st.nextBookId)
        (List.map
          (updateBookRow st.nextBookId
            ({ id := 0, authorID := updB.authorID, name := updB.name, isbn := updB.isbn } : Book))
          st.books)) = none := by
      rw [List.find?_eq_none]
      intro x hx
      obtain ⟨y, hy, rfl⟩ := List.mem_map.mp hx
      have := hwf.2 y hy
      simp only [updateBookRow_id, decide_eq_true_eq]
      omega
    have hupd : UpdateBook (CreateBook st reqB false false false).1
        st.nextBookId updB false false false =
        ({ st with
            books := List.map
              (updateBookRow st.nextBookId
                ({ id := 0, authorID := updB.authorID, name := updB.name, isbn := updB.isbn } : Book))
              (st.books ++
                [{ id := st.nextBookId, authorID := reqB.authorID,
                   name := reqB.name, isbn := reqB.isbn }]),
            nextBookId := st.nextBookId + 1 },
         Success) := by
      rw [hcreate]
      simp [UpdateBook, GetAuthorByID, repoUpdateBook, hfind1, ha2]
    refine ⟨by rw [hcreate], by rw [hupd], ?_⟩
    rw [hupd]
    simp [GetBookByID, findBookById, List.find?_append, hmapnone, hrow]

/-- C7 witness: `create_update_get_roundtrip` on a concrete store: the
author round-trip from pen name "old" to ("new", 1950), and the book
round-trip from ("old book", "isbn1") under author 1 to
("new book", "isbn2") under author 2. -/
theorem create_update_get_roundtrip_witness :
    GetAuthorByID
        (UpdateAuthor
          (CreateAuthor
            { authors := [], books := [], nextAuthorId := 0, nextBookId := 0 }
            { penName := "old", birthYear := 1900 } false false).1
          0 { penName := "new", birthYear := 1950 } false false).1
        0 false =
      (some { id := 0, penName := "new", birthYear := 1950 }, Success) ∧
    GetBookByID
        (UpdateBook
          (CreateBook
            { authors := [{ id := 1, penName := "a", birthYear := 1990 },
                          { id := 2, penName := "b", birthYear := 1991 }],
              books := [], nextAuthorId := 3, nextBookId := 0 }
            { authorID := 1, name := "old book", isbn := "isbn1" } false false false).1
          0 { authorID := 2, name := "new book", isbn := "isbn2" } false false false).1
        0 false =
      (some { id := 0, authorID := 2, name := "new book", isbn := "isbn2" }, Success) := by
  constructor
  · exact (create_update_get_roundtrip.1
      { authors := [], books := [], nextAuthorId := 0, nextBookId := 0 }
      { penName := "old", birthYear := 1900 } { penName := "new", birthYear := 1950 }
      (by decide) (by decide) (by decide)).2.2
  · exact (create_update_get_roundtrip.2
      { authors := [{ id := 1, penName := "a", birthYear := 1990 },
                    { id := 2, penName := "b", birthYear := 1991 }],
        books := [], nextAuthorId := 3, nextBookId := 0 }
      { authorID := 1, name := "old book", isbn := "isbn1" }
      { authorID := 2, name := "new book", isbn := "isbn2" }
      (by decide) (by decide) (by decide) (by decide) (by decide)).2.2

end SimpleGinCrud
